import Mathlib

/-!
Verification of the webhook ingestion and provider-dispatch pipeline of the
repository: the billing provider strategy factory
(`BillingEventHandlerFactoryService.GetProviderStrategy`), the configured
billing provider lookup (`getBillingProvider` / `getBillingGatewayProvider`),
the database webhook verifier selector (`getDatabaseWebhookVerifier`), and the
webhook verification/dispatch contract of `BillingWebhookHandlerService`.

JavaScript `throw` is modelled as `Except.error` carrying a `JsValue`: a thrown
value is either an `Error` object with a message (`jsError`) or the value
`null` (`jsNull`), which JavaScript permits to be thrown.  Side effects that
the claims quantify over (dynamic module imports, handler construction,
callback invocation) are made explicit as trace lists returned alongside the
result, so that "is never invoked / loaded" is a statement about the trace.
-/

set_option maxRecDepth 8192

deriving instance DecidableEq for Except

/-- A JavaScript value thrown by `throw`: either an `Error` object carrying a
message, or the literal `null` (JavaScript allows throwing any value). -/
inductive JsValue where
  | jsNull : JsValue
  | jsError (message : String) : JsValue
deriving DecidableEq, Repr

/-- Modelled from the spec: `ConfigurationError` is "missing/invalid provider
config — fatal, surfaced to operator": an `Error` object carrying a
configuration-failure message.  A thrown `null` is not a `ConfigurationError`
because it is not an `Error` object and carries no message. -/
def isConfigurationError : JsValue → Bool
  | JsValue.jsError _ => true
  | JsValue.jsNull => false

/-- The result row of the Supabase query
`client.from('config').select('billing_provider').single()` in
`getBillingProvider`: a possible query error and, on success, the
`billing_provider` column, which may be SQL `null`. -/
structure ConfigQueryRow where
  error : Option String
  billing_provider : Option String
deriving DecidableEq, Repr

/-- JavaScript falsiness of the `billing_provider` field: `!data.billing_provider`
is `true` when the field is `null`/absent or the empty string. -/
def billingProviderFalsy (bp : Option String) : Bool :=
  match bp with
  | none => true
  | some s => s = ""

/-- Embedding of `getBillingProvider` (update-member-role-dialog.tsx, lines
206-219).  The source checks `if (error ?? !data.billing_provider) throw error;`
— when the query errored, the condition is the (truthy) error object and the
error object is thrown; when the query succeeded but `billing_provider` is
falsy, the condition is `!data.billing_provider = true` and `throw error`
throws the error value, which in that case is `null`. -/
def getBillingProvider (row : ConfigQueryRow) : Except JsValue String :=
  match row.error with
  | some e => Except.error (JsValue.jsError e)
  | none =>
      match row.billing_provider with
      | none => Except.error JsValue.jsNull
      | some bp =>
          if bp = "" then Except.error JsValue.jsNull else Except.ok bp

/-- Modelled from the spec: `createBillingGatewayService` (imported by
update-member-role-dialog.tsx from `./billing-gateway.service`, whose source is
not in the repository) constructs the billing gateway service for the resolved
provider. -/
structure BillingGatewayService where
  provider : String
deriving DecidableEq, Repr

/-- Modelled from the spec: the constructor of the billing gateway for a
provider identifier; its invocation is what the trace of
`getBillingGatewayProvider` records. -/
def createBillingGatewayService (provider : String) : BillingGatewayService :=
  ⟨provider⟩

/-- Embedding of `getBillingGatewayProvider` (lines 198-204): awaits
`getBillingProvider` and only then calls `createBillingGatewayService`.  The
second component records each invocation of the gateway constructor, so a
failure of the lookup leaves the trace empty: the gateway is never created. -/
def getBillingGatewayProvider (row : ConfigQueryRow) :
    Except JsValue BillingGatewayService × List String :=
  match getBillingProvider row with
  | Except.error e => (Except.error e, [])
  | Except.ok provider =>
      (Except.ok (createBillingGatewayService provider),
       ["createBillingGatewayService"])

/-- The provider strategies that `GetProviderStrategy` can return: instances of
the provider-specific `BillingWebhookHandlerService` subclasses.  The concrete
classes live in `@kit/stripe` and `@kit/lemon-squeezy`, outside this
repository, so a strategy is identified by which handler class was
instantiated. -/
inductive Strategy where
  | stripeWebhookHandlerService : Strategy
  | lemonSqueezyWebhookHandlerService : Strategy
deriving DecidableEq, Repr

/-- A side effect of `GetProviderStrategy`: a dynamic `import()` of a provider
module, or the construction of a handler instance. -/
inductive LoadEvent where
  | moduleLoad (moduleName : String) : LoadEvent
  | handlerConstructed (className : String) : LoadEvent
deriving DecidableEq, Repr

/-- The error thrown by the `default` branch of `GetProviderStrategy`:
`new Error('Unsupported billing provider: ' + provider)`.  This realizes the
spec's `UnsupportedProviderError`. -/
def UnsupportedProviderError (provider : String) : JsValue :=
  JsValue.jsError ("Unsupported billing provider: " ++ provider)

/-- The error thrown by the `paddle` branch of `GetProviderStrategy`:
`new Error('Paddle is not supported yet')`.  This realizes the spec's
`NotImplementedError`. -/
def NotImplementedError : JsValue :=
  JsValue.jsError "Paddle is not supported yet"

/-- Embedding of `BillingEventHandlerFactoryService.GetProviderStrategy`
(update-member-role-dialog.tsx, lines 228-253): a switch over the provider
identifier.  `stripe` dynamically imports `@kit/stripe` and constructs
`StripeWebhookHandlerService`; `lemon-squeezy` dynamically imports
`@kit/lemon-squeezy` and constructs `LemonSqueezyWebhookHandlerService`;
`paddle` throws before loading anything; any other identifier falls through to
the `default` branch and throws.  The second component is the trace of module
loads and handler constructions performed by the call. -/
def GetProviderStrategy (provider : String) :
    Except JsValue Strategy × List LoadEvent :=
  if provider = "stripe" then
    (Except.ok Strategy.stripeWebhookHandlerService,
     [LoadEvent.moduleLoad "@kit/stripe",
      LoadEvent.handlerConstructed "StripeWebhookHandlerService"])
  else if provider = "lemon-squeezy" then
    (Except.ok Strategy.lemonSqueezyWebhookHandlerService,
     [LoadEvent.moduleLoad "@kit/lemon-squeezy",
      LoadEvent.handlerConstructed "LemonSqueezyWebhookHandlerService"])
  else if provider = "paddle" then
    (Except.error NotImplementedError, [])
  else
    (Except.error (UnsupportedProviderError provider), [])

/-- The module imported for each supported provider identifier. -/
def providerModule : String → String
  | "stripe" => "@kit/stripe"
  | "lemon-squeezy" => "@kit/lemon-squeezy"
  | _ => ""

/-- The handler class constructed for each supported provider identifier. -/
def providerHandlerClass : String → String
  | "stripe" => "StripeWebhookHandlerService"
  | "lemon-squeezy" => "LemonSqueezyWebhookHandlerService"
  | _ => ""

/-- The strategy instance returned for each supported provider identifier. -/
def handlerOf : String → Option Strategy
  | "stripe" => some Strategy.stripeWebhookHandlerService
  | "lemon-squeezy" => some Strategy.lemonSqueezyWebhookHandlerService
  | _ => none

/-- The database webhook verifier implementations selectable by
`getDatabaseWebhookVerifier`; only the built-in postgres one exists. -/
inductive DatabaseWebhookVerifier where
  | postgresDatabaseWebhookVerifierService : DatabaseWebhookVerifier
deriving DecidableEq, Repr

/-- Embedding of `WEBHOOK_SENDER_PROVIDER` (verifier/index.ts, lines 1-2):
`process.env.WEBHOOK_SENDER_PROVIDER ?? 'postgres'` — the environment value
when set, otherwise the default `postgres`. -/
def WEBHOOK_SENDER_PROVIDER (env : Option String) : String :=
  env.getD "postgres"

/-- Embedding of `getDatabaseWebhookVerifier` (verifier/index.ts, lines 4-19):
a switch on `WEBHOOK_SENDER_PROVIDER` returning the built-in postgres verifier
for `postgres` and throwing
`new Error('Invalid WEBHOOK_SENDER_PROVIDER: ' + value)` otherwise. -/
def getDatabaseWebhookVerifier (env : Option String) :
    Except JsValue DatabaseWebhookVerifier :=
  if WEBHOOK_SENDER_PROVIDER env = "postgres" then
    Except.ok DatabaseWebhookVerifier.postgresDatabaseWebhookVerifierService
  else
    Except.error
      (JsValue.jsError
        ("Invalid WEBHOOK_SENDER_PROVIDER: " ++ WEBHOOK_SENDER_PROVIDER env))

/-- The raw inbound webhook request: the signature header value and the raw
body bytes (modelled as a string), per the spec's Webhook Envelope. -/
structure WebhookEnvelope where
  signatureHeader : String
  rawBody : String
deriving DecidableEq, Repr

/-- The parsed, trusted payload a provider delivers: an event-type
discriminator and the data fields that the canonical billing event variants
draw from. -/
structure WebhookPayload where
  eventType : String
  subscriptionOrOrder : String
  subscription : String
  customerId : String
  subscriptionId : String
  sessionId : String
deriving DecidableEq, Repr

/-- Modelled from the spec: the failure cases of `verifyWebhookSignature`,
which "fails with `SignatureVerificationError` when the computed signature does
not match, when the secret is missing/misconfigured, or when the payload is
malformed" (the implementations in `@kit/stripe` and `@kit/lemon-squeezy` are
not in the repository; only the abstract contract in
billing-webhook-handler.service.ts, lines 14-15, is). -/
inductive SignatureVerificationErr where
  | signatureMismatch : SignatureVerificationErr
  | missingSecret : SignatureVerificationErr
  | malformedPayload : SignatureVerificationErr
deriving DecidableEq, Repr

/-- Modelled from the spec: the provider's HMAC-style signature, a keyed
digest computed over the exact raw body bytes (a rolling hash of the
secret-prefixed character sequence). -/
def computeSignature (secret : String) (rawBody : String) : String :=
  Nat.repr
    (List.foldl (fun acc c => (acc * 31 + c.toNat) % 1000000007) 7
      (secret ++ "|" ++ rawBody).data)

/-- Splits a character list at each occurrence of the separator. -/
def splitChars (sep : Char) : List Char → List (List Char)
  | [] => [[]]
  | c :: rest =>
      match splitChars sep rest with
      | [] => [[]]
      | f :: fs => if c = sep then [] :: f :: fs else (c :: f) :: fs

/-- Modelled from the spec: parsing the raw body into the provider payload
(six fields separated by `;`); any other shape is a malformed payload. -/
def parsePayload (rawBody : String) : Option WebhookPayload :=
  match splitChars ';' rawBody.data with
  | [et, so, sub, cid, sid, sess] =>
      some ⟨String.mk et, String.mk so, String.mk sub, String.mk cid,
        String.mk sid, String.mk sess⟩
  | _ => none

/-- Modelled from the spec: `verifyWebhookSignature` — the verifier contract of
`BillingWebhookHandlerService` (billing-webhook-handler.service.ts, lines
14-15, "should throw an error if the signature is invalid").  It operates on
the raw, unparsed body: the keyed digest over the exact raw bytes must equal
the signature header, the secret must be configured, and the body must parse. -/
def verifyWebhookSignature (secret : Option String) (envp : WebhookEnvelope) :
    Except SignatureVerificationErr WebhookPayload :=
  match secret with
  | none => Except.error SignatureVerificationErr.missingSecret
  | some s =>
      if envp.signatureHeader = computeSignature s envp.rawBody then
        match parsePayload envp.rawBody with
        | some payload => Except.ok payload
        | none => Except.error SignatureVerificationErr.malformedPayload
      else Except.error SignatureVerificationErr.signatureMismatch

/-- The Canonical Billing Event: the closed set of variants of the spec's data
model, mirroring the five callbacks of `handleWebhookEvent`
(billing-webhook-handler.service.ts, lines 17-43). -/
inductive CanonicalBillingEvent where
  | checkoutCompleted (subscriptionOrOrder : String) (customerId : String) :
      CanonicalBillingEvent
  | subscriptionUpdated (subscription : String) (customerId : String) :
      CanonicalBillingEvent
  | subscriptionDeleted (subscriptionId : String) : CanonicalBillingEvent
  | paymentSucceeded (sessionId : String) : CanonicalBillingEvent
  | paymentFailed (sessionId : String) : CanonicalBillingEvent
deriving DecidableEq, Repr

/-- The Callback Set of `handleWebhookEvent` (billing-webhook-handler.service.ts,
lines 19-42): one asynchronous handler per canonical event kind, each of which
may reject with an error of type `ε`. -/
structure CallbackSet (ε : Type) where
  onCheckoutSessionCompleted : String → String → Except ε Unit
  onSubscriptionUpdated : String → String → Except ε Unit
  onSubscriptionDeleted : String → Except ε Unit
  onPaymentSucceeded : String → Except ε Unit
  onPaymentFailed : String → Except ε Unit

/-- A record of one callback invocation: which callback fired and with which
arguments. -/
inductive CallbackInvocation where
  | onCheckoutSessionCompleted (subscriptionOrOrder : String)
      (customerId : String) : CallbackInvocation
  | onSubscriptionUpdated (subscription : String) (customerId : String) :
      CallbackInvocation
  | onSubscriptionDeleted (subscriptionId : String) : CallbackInvocation
  | onPaymentSucceeded (sessionId : String) : CallbackInvocation
  | onPaymentFailed (sessionId : String) : CallbackInvocation
deriving DecidableEq, Repr

/-- Running one recorded invocation against a callback set: the result the
named callback produces on those arguments. -/
def runCallback {ε : Type} (cb : CallbackSet ε) :
    CallbackInvocation → Except ε Unit
  | CallbackInvocation.onCheckoutSessionCompleted so cid =>
      cb.onCheckoutSessionCompleted so cid
  | CallbackInvocation.onSubscriptionUpdated sub cid =>
      cb.onSubscriptionUpdated sub cid
  | CallbackInvocation.onSubscriptionDeleted sid =>
      cb.onSubscriptionDeleted sid
  | CallbackInvocation.onPaymentSucceeded sess =>
      cb.onPaymentSucceeded sess
  | CallbackInvocation.onPaymentFailed sess =>
      cb.onPaymentFailed sess

/-- The recognized provider event types, with the canonical variant each one
maps to (Stripe-style discriminators, per the spec scenario
`{"type":"checkout.session.completed", ...}`). -/
def recognizedEventTypes : List String :=
  ["checkout.session.completed",
   "customer.subscription.updated",
   "customer.subscription.deleted",
   "checkout.session.async_payment_succeeded",
   "checkout.session.async_payment_failed"]

/-- Modelled from the spec: the Event Normalizer — "classifies the verified
payload into exactly one Canonical Billing Event variant using
provider-specific event-type discrimination"; an unrecognized event type maps
to no variant. -/
def classifyEvent (p : WebhookPayload) : Option CanonicalBillingEvent :=
  if p.eventType = "checkout.session.completed" then
    some (CanonicalBillingEvent.checkoutCompleted p.subscriptionOrOrder
      p.customerId)
  else if p.eventType = "customer.subscription.updated" then
    some (CanonicalBillingEvent.subscriptionUpdated p.subscription p.customerId)
  else if p.eventType = "customer.subscription.deleted" then
    some (CanonicalBillingEvent.subscriptionDeleted p.subscriptionId)
  else if p.eventType = "checkout.session.async_payment_succeeded" then
    some (CanonicalBillingEvent.paymentSucceeded p.sessionId)
  else if p.eventType = "checkout.session.async_payment_failed" then
    some (CanonicalBillingEvent.paymentFailed p.sessionId)
  else none

/-- The single callback invocation a canonical event selects. -/
def invocationOf : CanonicalBillingEvent → CallbackInvocation
  | CanonicalBillingEvent.checkoutCompleted so cid =>
      CallbackInvocation.onCheckoutSessionCompleted so cid
  | CanonicalBillingEvent.subscriptionUpdated sub cid =>
      CallbackInvocation.onSubscriptionUpdated sub cid
  | CanonicalBillingEvent.subscriptionDeleted sid =>
      CallbackInvocation.onSubscriptionDeleted sid
  | CanonicalBillingEvent.paymentSucceeded sess =>
      CallbackInvocation.onPaymentSucceeded sess
  | CanonicalBillingEvent.paymentFailed sess =>
      CallbackInvocation.onPaymentFailed sess

/-- Modelled from the spec: `handleWebhookEvent` — the Dispatcher contract of
`BillingWebhookHandlerService` (billing-webhook-handler.service.ts, lines
17-43; the provider implementations are not in the repository).  The verified
payload is classified into at most one canonical variant; the single matching
callback is awaited and its result returned unmodified; an unrecognized event
type invokes nothing and resolves.  The second component is the trace of
callback invocations. -/
def handleWebhookEvent {ε : Type} (cb : CallbackSet ε) (p : WebhookPayload) :
    Except ε Unit × List CallbackInvocation :=
  match classifyEvent p with
  | some ev => (runCallback cb (invocationOf ev), [invocationOf ev])
  | none => (Except.ok (), [])

/-- The terminal states of one dispatch, per the spec's state machine:
`Rejected` (signature verification failed), `Completed`, or `CallbackFailed`
with the callback's error. -/
inductive DispatchResult (ε : Type) where
  | rejected (err : SignatureVerificationErr) : DispatchResult ε
  | completed : DispatchResult ε
  | callbackFailed (e : ε) : DispatchResult ε
deriving DecidableEq, Repr

/-- Modelled from the spec: the Webhook Dispatcher pipeline — verify the
envelope first; only a verified payload is normalized into a canonical event
and dispatched to a callback.  The result is the terminal state together with
the list of canonical events constructed and the list of callback invocations
performed. -/
def processWebhook {ε : Type} (cb : CallbackSet ε) (secret : Option String)
    (envp : WebhookEnvelope) :
    DispatchResult ε × List CanonicalBillingEvent × List CallbackInvocation :=
  match verifyWebhookSignature secret envp with
  | Except.error err => (DispatchResult.rejected err, [], [])
  | Except.ok payload =>
      match handleWebhookEvent cb payload with
      | (Except.ok _, invs) =>
          (DispatchResult.completed, (classifyEvent payload).toList, invs)
      | (Except.error e, invs) =>
          (DispatchResult.callbackFailed e, (classifyEvent payload).toList, invs)

/-- A callback set whose handlers all resolve successfully, used to instantiate
the dispatcher theorems at concrete inputs. -/
def exampleCallbacks : CallbackSet String where
  onCheckoutSessionCompleted := fun _ _ => Except.ok ()
  onSubscriptionUpdated := fun _ _ => Except.ok ()
  onSubscriptionDeleted := fun _ => Except.ok ()
  onPaymentSucceeded := fun _ => Except.ok ()
  onPaymentFailed := fun _ => Except.ok ()

/-- A callback set whose checkout handler rejects, used to instantiate the
error-propagation theorem at a concrete input. -/
def failingCallbacks : CallbackSet String where
  onCheckoutSessionCompleted := fun _ _ => Except.error "persistence failure"
  onSubscriptionUpdated := fun _ _ => Except.ok ()
  onSubscriptionDeleted := fun _ => Except.ok ()
  onPaymentSucceeded := fun _ => Except.ok ()
  onPaymentFailed := fun _ => Except.ok ()

/-- C1: for every provider identifier not in the known set
{"stripe", "lemon-squeezy", "paddle"}, `GetProviderStrategy` fails with the
`UnsupportedProviderError` naming that identifier, and its side-effect trace is
empty: no provider module is loaded and no handler is constructed. -/
theorem c1_unknown_provider_fails_without_loading (provider : String)
    (h : provider ∉ (["stripe", "lemon-squeezy", "paddle"] : List String)) :
    GetProviderStrategy provider =
      (Except.error (UnsupportedProviderError provider), ([] : List LoadEvent)) := by
  simp only [List.mem_cons, List.not_mem_nil, or_false, not_or] at h
  obtain ⟨h1, h2, h3⟩ := h
  simp [GetProviderStrategy, h1, h2, h3]

/-- Witness for C1 at the concrete unknown identifier "braintree". -/
theorem c1_witness :
    "braintree" ∉ (["stripe", "lemon-squeezy", "paddle"] : List String) ∧
    GetProviderStrategy "braintree" =
      (Except.error (UnsupportedProviderError "braintree"), ([] : List LoadEvent)) :=
  ⟨by decide, c1_unknown_provider_fails_without_loading "braintree" (by decide)⟩

/-- C2: called with "paddle", `GetProviderStrategy` throws the
`NotImplementedError` ("Paddle is not supported yet") immediately: its
side-effect trace is empty, so no provider module is loaded and no strategy is
constructed before the throw. -/
theorem c2_paddle_throws_not_implemented :
    GetProviderStrategy "paddle" =
      (Except.error NotImplementedError, ([] : List LoadEvent)) := by
  decide

/-- C3: for each supported provider identifier ("stripe" and "lemon-squeezy"),
`GetProviderStrategy` succeeds and returns that provider's webhook handler
service instance, and its trace loads exactly that provider's module and
constructs exactly that provider's handler — the other supported provider's
module is never loaded and its handler never constructed. -/
theorem c3_supported_provider_resolves_lazily (provider : String)
    (h : provider = "stripe" ∨ provider = "lemon-squeezy") :
    (∃ s, (GetProviderStrategy provider).1 = Except.ok s ∧
      handlerOf provider = some s) ∧
    (GetProviderStrategy provider).2 =
      [LoadEvent.moduleLoad (providerModule provider),
       LoadEvent.handlerConstructed (providerHandlerClass provider)] ∧
    (∀ q ∈ (["stripe", "lemon-squeezy"] : List String), q ≠ provider →
      LoadEvent.moduleLoad (providerModule q) ∉ (GetProviderStrategy provider).2 ∧
      LoadEvent.handlerConstructed (providerHandlerClass q) ∉
        (GetProviderStrategy provider).2) := by
  rcases h with h | h <;> subst h
  · refine ⟨⟨Strategy.stripeWebhookHandlerService, rfl, rfl⟩, rfl, ?_⟩
    intro q hq hne
    fin_cases hq
    · exact absurd rfl hne
    · exact ⟨by decide, by decide⟩
  · refine ⟨⟨Strategy.lemonSqueezyWebhookHandlerService, rfl, rfl⟩, rfl, ?_⟩
    intro q hq hne
    fin_cases hq
    · exact ⟨by decide, by decide⟩
    · exact absurd rfl hne

/-- Witness for C3 at the concrete supported identifier "stripe". -/
theorem c3_witness :
    (∃ s, (GetProviderStrategy "stripe").1 = Except.ok s ∧
      handlerOf "stripe" = some s) ∧
    (GetProviderStrategy "stripe").2 =
      [LoadEvent.moduleLoad (providerModule "stripe"),
       LoadEvent.handlerConstructed (providerHandlerClass "stripe")] ∧
    (∀ q ∈ (["stripe", "lemon-squeezy"] : List String), q ≠ "stripe" →
      LoadEvent.moduleLoad (providerModule q) ∉ (GetProviderStrategy "stripe").2 ∧
      LoadEvent.handlerConstructed (providerHandlerClass q) ∉
        (GetProviderStrategy "stripe").2) :=
  c3_supported_provider_resolves_lazily "stripe" (Or.inl rfl)

/-- Counterexample to C4: at the concrete config row with no query error and a
null `billing_provider`, the lookup throws the literal `null` — not a
`ConfigurationError` (not even an `Error` object) — so "fails with
`ConfigurationError`" is false as stated, although the failure does occur
before the billing gateway is created (empty constructor trace). -/
theorem c4_counterexample :
    getBillingProvider ⟨none, none⟩ = Except.error JsValue.jsNull ∧
    isConfigurationError JsValue.jsNull = false ∧
    getBillingGatewayProvider ⟨none, none⟩ =
      (Except.error JsValue.jsNull, ([] : List String)) :=
  ⟨rfl, rfl, rfl⟩

/-- C4 as amended: when the config row read yields an error or no
`billing_provider`, the lookup fails by throwing — the query's error when the
read errored, otherwise the literal `null`, not a dedicated
`ConfigurationError` — and the failure occurs before any provider strategy is
resolved: `createBillingGatewayService` is never invoked (empty trace). -/
theorem c4_lookup_fails_before_gateway (row : ConfigQueryRow)
    (h : row.error ≠ none ∨ billingProviderFalsy row.billing_provider = true) :
    ∃ e, getBillingProvider row = Except.error e ∧
      getBillingGatewayProvider row = (Except.error e, ([] : List String)) ∧
      (match row.error with
       | some m => e = JsValue.jsError m
       | none => e = JsValue.jsNull) := by
  obtain ⟨err, bp⟩ := row
  cases err with
  | some m =>
      exact ⟨JsValue.jsError m, rfl, by simp [getBillingGatewayProvider,
        getBillingProvider], rfl⟩
  | none =>
      refine ⟨JsValue.jsNull, ?_, ?_, rfl⟩ <;>
      · rcases h with h | h
        · exact absurd rfl h
        · cases bp with
          | none => rfl
          | some s =>
              have hs : s = "" := by
                simpa [billingProviderFalsy] using h
              subst hs
              rfl

/-- Witness for the amended C4 at a concrete row whose query errored. -/
theorem c4_witness :
    ∃ e, getBillingProvider ⟨some "connection error", some "stripe"⟩ =
        Except.error e ∧
      getBillingGatewayProvider ⟨some "connection error", some "stripe"⟩ =
        (Except.error e, ([] : List String)) ∧
      (match (some "connection error" : Option String) with
       | some m => e = JsValue.jsError m
       | none => e = JsValue.jsNull) :=
  c4_lookup_fails_before_gateway ⟨some "connection error", some "stripe"⟩
    (Or.inl (by decide))

/-- C5: `getDatabaseWebhookVerifier` returns the built-in
`PostgresDatabaseWebhookVerifierService` when the `WEBHOOK_SENDER_PROVIDER`
environment value is unset, and for any set value other than "postgres" it
throws an error whose message names the invalid value, returning no
verifier. -/
theorem c5_webhook_verifier_selector :
    getDatabaseWebhookVerifier none =
      Except.ok DatabaseWebhookVerifier.postgresDatabaseWebhookVerifierService ∧
    ∀ v, v ≠ "postgres" →
      getDatabaseWebhookVerifier (some v) =
        Except.error
          (JsValue.jsError ("Invalid WEBHOOK_SENDER_PROVIDER: " ++ v)) := by
  refine ⟨rfl, fun v hv => ?_⟩
  simp [getDatabaseWebhookVerifier, WEBHOOK_SENDER_PROVIDER, hv]

/-- Witness for C5 at the concrete invalid value "kafka". -/
theorem c5_witness :
    getDatabaseWebhookVerifier (some "kafka") =
      Except.error
        (JsValue.jsError ("Invalid WEBHOOK_SENDER_PROVIDER: " ++ "kafka")) :=
  c5_webhook_verifier_selector.2 "kafka" (by decide)

/-- C10: when the config query returns without an error but `billing_provider`
is null or empty (JavaScript-falsy), `getBillingProvider` throws the query's
error value — `null` — which is not an `Error` object carrying a
configuration-failure message. -/
theorem c10_falsy_provider_throws_null (row : ConfigQueryRow)
    (h1 : row.error = none)
    (h2 : billingProviderFalsy row.billing_provider = true) :
    getBillingProvider row = Except.error JsValue.jsNull ∧
    isConfigurationError JsValue.jsNull = false := by
  obtain ⟨err, bp⟩ := row
  subst h1
  refine ⟨?_, rfl⟩
  cases bp with
  | none => rfl
  | some s =>
      have hs : s = "" := by simpa [billingProviderFalsy] using h2
      subst hs
      rfl

/-- Witness for C10 at the concrete row with no query error and an empty
`billing_provider`. -/
theorem c10_witness :
    getBillingProvider ⟨none, some ""⟩ = Except.error JsValue.jsNull ∧
    isConfigurationError JsValue.jsNull = false :=
  c10_falsy_provider_throws_null ⟨none, some ""⟩ rfl rfl

/-- C6: if signature verification of the envelope fails, the entire dispatch
short-circuits: the dispatch terminates in the `rejected` state, no canonical
billing event is constructed (empty event list) and no callback from the
callback set is invoked (empty invocation list). -/
theorem c6_verification_failure_short_circuits {ε : Type} (cb : CallbackSet ε)
    (secret : Option String) (envp : WebhookEnvelope)
    (err : SignatureVerificationErr)
    (h : verifyWebhookSignature secret envp = Except.error err) :
    processWebhook cb secret envp =
      (DispatchResult.rejected err, ([] : List CanonicalBillingEvent),
       ([] : List CallbackInvocation)) := by
  unfold processWebhook
  rw [h]

/-- Witness for C6 at a concrete envelope whose signature header does not match
the digest of the body. -/
theorem c6_witness :
    processWebhook exampleCallbacks (some "whsec_test")
      ⟨"tampered", "checkout.session.completed;sub_1;;cus_1;;"⟩ =
      (DispatchResult.rejected SignatureVerificationErr.signatureMismatch,
       ([] : List CanonicalBillingEvent), ([] : List CallbackInvocation)) :=
  c6_verification_failure_short_circuits exampleCallbacks (some "whsec_test")
    ⟨"tampered", "checkout.session.completed;sub_1;;cus_1;;"⟩
    SignatureVerificationErr.signatureMismatch (by decide)

/-- C7: for every verified payload whose event type is "checkout completed",
`handleWebhookEvent` invokes `onCheckoutSessionCompleted` exactly once —
the invocation trace is precisely that single call, carrying the payload's
(subscription-or-order, customerId) pair, so none of the other callbacks is
invoked — and the result is that callback's result. -/
theorem c7_checkout_completed_dispatches_once {ε : Type} (cb : CallbackSet ε)
    (p : WebhookPayload) (h : p.eventType = "checkout.session.completed") :
    (handleWebhookEvent cb p).2 =
      [CallbackInvocation.onCheckoutSessionCompleted p.subscriptionOrOrder
        p.customerId] ∧
    (handleWebhookEvent cb p).1 =
      cb.onCheckoutSessionCompleted p.subscriptionOrOrder p.customerId := by
  unfold handleWebhookEvent classifyEvent
  rw [h]
  exact ⟨rfl, rfl⟩

/-- Witness for C7 at a concrete checkout-completed payload. -/
theorem c7_witness :
    (handleWebhookEvent exampleCallbacks
        ⟨"checkout.session.completed", "sub_123", "", "cus_42", "", ""⟩).2 =
      [CallbackInvocation.onCheckoutSessionCompleted "sub_123" "cus_42"] ∧
    (handleWebhookEvent exampleCallbacks
        ⟨"checkout.session.completed", "sub_123", "", "cus_42", "", ""⟩).1 =
      exampleCallbacks.onCheckoutSessionCompleted "sub_123" "cus_42" :=
  c7_checkout_completed_dispatches_once exampleCallbacks
    ⟨"checkout.session.completed", "sub_123", "", "cus_42", "", ""⟩ rfl

/-- C8: for every payload whose event type is not one of the recognized
canonical variants, `handleWebhookEvent` invokes zero callbacks (empty
invocation trace) and completes without throwing (`ok`). -/
theorem c8_unrecognized_event_ignored {ε : Type} (cb : CallbackSet ε)
    (p : WebhookPayload) (h : p.eventType ∉ recognizedEventTypes) :
    handleWebhookEvent cb p =
      (Except.ok (), ([] : List CallbackInvocation)) := by
  unfold handleWebhookEvent
  have hcl : classifyEvent p = none := by
    unfold classifyEvent
    simp only [recognizedEventTypes, List.mem_cons, List.not_mem_nil, or_false,
      not_or] at h
    obtain ⟨h1, h2, h3, h4, h5⟩ := h
    simp [h1, h2, h3, h4, h5]
  rw [hcl]

/-- Witness for C8 at the concrete unrecognized event type "invoice.paid". -/
theorem c8_witness :
    handleWebhookEvent exampleCallbacks
      ⟨"invoice.paid", "", "", "", "", ""⟩ =
      (Except.ok (), ([] : List CallbackInvocation)) :=
  c8_unrecognized_event_ignored exampleCallbacks
    ⟨"invoice.paid", "", "", "", "", ""⟩ (by decide)

/-- C9: for every callback set, payload, and error value `e`, if the single
callback that the dispatch invoked rejects with `e`, then `handleWebhookEvent`
rejects with exactly that same error `e`, unmodified. -/
theorem c9_callback_error_propagates_unmodified {ε : Type} (cb : CallbackSet ε)
    (p : WebhookPayload) (inv : CallbackInvocation) (e : ε)
    (h1 : (handleWebhookEvent cb p).2 = [inv])
    (h2 : runCallback cb inv = Except.error e) :
    (handleWebhookEvent cb p).1 = Except.error e := by
  cases hcl : classifyEvent p with
  | none => simp [handleWebhookEvent, hcl] at h1
  | some ev =>
      simp only [handleWebhookEvent, hcl] at h1 ⊢
      simp only [List.cons.injEq, and_true] at h1
      rw [h1]
      exact h2

/-- Witness for C9: a checkout payload dispatched to a callback set whose
checkout handler rejects with "persistence failure". -/
theorem c9_witness :
    (handleWebhookEvent failingCallbacks
        ⟨"checkout.session.completed", "sub_9", "", "cus_9", "", ""⟩).1 =
      Except.error "persistence failure" :=
  c9_callback_error_propagates_unmodified failingCallbacks
    ⟨"checkout.session.completed", "sub_9", "", "cus_9", "", ""⟩
    (CallbackInvocation.onCheckoutSessionCompleted "sub_9" "cus_9")
    "persistence failure" (by decide) rfl

/-- Sanity check of the modelled pipeline: an envelope whose signature header
is the digest of the exact raw body verifies, is normalized into the checkout
event, invokes the checkout callback once, and completes. -/
theorem signed_checkout_envelope_completes :
    processWebhook exampleCallbacks (some "whsec_test")
      ⟨computeSignature "whsec_test"
          "checkout.session.completed;sub_1;;cus_1;;",
        "checkout.session.completed;sub_1;;cus_1;;"⟩ =
      (DispatchResult.completed,
       [CanonicalBillingEvent.checkoutCompleted "sub_1" "cus_1"],
       [CallbackInvocation.onCheckoutSessionCompleted "sub_1" "cus_1"]) := by
  decide
